import Mathlib

set_option maxRecDepth 10000

/-!
Shallow embedding of the ZongJi session orchestrator (src/index.js): the
filter policy (_skipEvent, _skipSchema), the table metadata cache
(_fetchTableInfo), the checksum negotiator (_isChecksumEnabled), the
position resolver (_findBinlogEnd), and the start/stop lifecycle with its
stopped guards. Asynchronous queries are suspension points: each operation
is split into the synchronous part before its query is issued and the
callback that runs when the query result arrives, so that a stop() call can
be interleaved at the suspension point. Query results are inputs (an
oracle or an explicit Except value); emitted notifications are collected in
a trace list.
-/

namespace ZongJi

/-- An emitted notification on the session's event channel. -/
inductive Emitted where
  | ready
  | stopped
  | error (msg : String)
  | binlog
deriving Repr, DecidableEq

/-- `this.options`: `{serverId, filename, position, startAtEnd}` (index.js
line 124-126). Absent fields are `none`; `startAtEnd` is used only for its
truthiness, modelled as `Bool`. -/
structure SessionOptions where
  serverId : Option Nat
  filename : Option String
  position : Option Nat
  startAtEnd : Bool
deriving Repr, DecidableEq

/-- Event-name filters `{includeEvents, excludeEvents}` of `this.filters`
(index.js line 127-129). -/
structure EventFilters where
  includeEvents : Option (List String)
  excludeEvents : Option (List String)

/-- A schema rule as `_skipSchema` distinguishes them at runtime: boolean
`true` (all tables), an array of table names, or a predicate function. -/
inductive SchemaRule where
  | allTables
  | tableList (ts : List String)
  | pred (f : String → Bool)

/-- Schema filters `{includeSchema, excludeSchema}` of `this.filters`,
each a map from schema name to rule, modelled as an association list. -/
structure SchemaFilters where
  includeSchema : Option (List (String × SchemaRule))
  excludeSchema : Option (List (String × SchemaRule))

/-- `_skipEvent` (index.js lines 207-213):
`included = !includes || includes.includes(name)`;
`excluded = excludes && excludes.includes(name)`;
result `excluded || !included`. -/
def skipEvent (f : EventFilters) (name : String) : Bool :=
  let included := match f.includeEvents with
    | none => true
    | some l => l.contains name
  let excluded := match f.excludeEvents with
    | none => false
    | some l => l.contains name
  excluded || !included

/-- The three-way rule test shared by both branches of `_skipSchema`
(index.js lines 220-222 and 225-227): `rule === true`, array membership,
or predicate invocation. -/
def ruleMatches (r : SchemaRule) (table : String) : Bool :=
  match r with
  | .allTables => true
  | .tableList ts => ts.contains table
  | .pred f => f table

/-- `_skipSchema` (index.js lines 214-229): `excludes` defaults to the
empty map (`this.filters.excludeSchema || {}`); `included = !includes ||
(db in includes && rule matches)`; `excluded = db in excludes && rule
matches`; result `excluded || !included`. -/
def skipSchema (f : SchemaFilters) (db table : String) : Bool :=
  let included := match f.includeSchema with
    | none => true
    | some m => match m.lookup db with
      | none => false
      | some r => ruleMatches r table
  let excluded := match f.excludeSchema with
    | none => false
    | some m => match m.lookup db with
      | none => false
      | some r => ruleMatches r table
  excluded || !included

/-- One row of the INFORMATION_SCHEMA.COLUMNS result, with the five
selected columns of `TableInfoQueryTemplate`. -/
structure ColumnRow where
  COLUMN_NAME : String
  COLLATION_NAME : String
  CHARACTER_SET_NAME : String
  COLUMN_COMMENT : String
  COLUMN_TYPE : String
deriving Repr, DecidableEq

/-- The value stored in `this.tableMap[tableId]` (index.js lines 113-117). -/
structure TableInfoEntry where
  columnSchemas : List ColumnRow
  parentSchema : String
  tableName : String
deriving Repr, DecidableEq

/-- The fields of a table-map event that `_fetchTableInfo` reads. -/
structure TableMapEvent where
  tableId : Nat
  schemaName : String
  tableName : String
deriving Repr, DecidableEq

/-- JavaScript object property assignment `tableMap[id] = e` on an
association list: replaces the entry for `id` if present, appends
otherwise. -/
def setTableMap (m : List (Nat × TableInfoEntry)) (id : Nat)
    (e : TableInfoEntry) : List (Nat × TableInfoEntry) :=
  match m with
  | [] => [(id, e)]
  | (k, v) :: rest =>
    if k = id then (id, e) :: rest else (k, v) :: setTableMap rest id e

/-- The mutable per-session state of the orchestrator (constructor,
index.js lines 12-24, plus the connection-teardown flags of `stop`). -/
structure Session where
  options : SessionOptions
  tableMap : List (Nat × TableInfoEntry)
  ready : Bool
  stopped : Bool
  useChecksum : Bool
  connectionDestroyed : Bool
  ctrlConnectionOwner : Bool
  ctrlDestroyed : Bool
deriving Repr, DecidableEq

/-- The state set up by the constructor (index.js lines 15-23), with the
default empty options. -/
def initSession : Session :=
  { options := { serverId := none, filename := none, position := none,
                 startAtEnd := false }
    tableMap := []
    ready := false
    stopped := false
    useChecksum := false
    connectionDestroyed := false
    ctrlConnectionOwner := true
    ctrlDestroyed := false }

/-- The error message built at index.js lines 106-108. -/
def tableInfoErrorMessage (schemaName tableName : String) : String :=
  "Insufficient permissions to access [" ++ schemaName ++ "." ++ tableName ++
    "], or the table has been dropped."

/-- Outcome of one `_fetchTableInfo` callback run: the updated session,
the notifications it emitted, and whether it invoked `next`. -/
structure FetchResult where
  session : Session
  events : List Emitted
  nextCalled : Bool
deriving Repr, DecidableEq

/-- The `_fetchTableInfo` callback (index.js lines 100-120) applied to the
query outcome: a transport error is re-emitted as `error`; a zero-row
result emits the permission/dropped-table `error` and returns; otherwise
`tableMap[tableId]` is overwritten and `next()` invoked. -/
def fetchTableInfo (ev : TableMapEvent)
    (outcome : Except String (List ColumnRow)) (s : Session) : FetchResult :=
  match outcome with
  | .error e => { session := s, events := [.error e], nextCalled := false }
  | .ok rows =>
    if rows.length = 0 then
      { session := s
        events := [.error (tableInfoErrorMessage ev.schemaName ev.tableName)]
        nextCalled := false }
    else
      { session := { s with
          tableMap := setTableMap s.tableMap ev.tableId
            { columnSchemas := rows
              parentSchema := ev.schemaName
              tableName := ev.tableName } }
        events := []
        nextCalled := true }

/-- The connection a query is issued on. -/
inductive Conn where
  | ctrl
  | stream
deriving Repr, DecidableEq

/-- A query call as handed to the client library: the connection, the SQL
text, and the list of bound parameters (none are ever passed). -/
structure QueryCall where
  conn : Conn
  sql : String
  params : List String
deriving Repr, DecidableEq

/-- The template of index.js lines 6-10, with its literal line breaks and
`%s` placeholders. -/
def TableInfoQueryTemplate : String :=
  "SELECT \n  COLUMN_NAME, COLLATION_NAME, CHARACTER_SET_NAME, \n  COLUMN_COMMENT, COLUMN_TYPE \n  FROM INFORMATION_SCHEMA.COLUMNS WHERE TABLE_SCHEMA='%s' AND TABLE_NAME='%s' \n  ORDER BY ORDINAL_POSITION"

/-- `util.format` on `%s` placeholders, over the template's characters:
each `%s` is replaced by the next argument; placeholders beyond the
argument list are kept verbatim. -/
def formatScan : List Char → List String → List Char
  | [], _ => []
  | '%' :: 's' :: rest, a :: args => a.data ++ formatScan rest args
  | '%' :: 's' :: rest, [] => '%' :: 's' :: formatScan rest []
  | c :: rest, args => c :: formatScan rest args

/-- `util.format(template, ...args)` restricted to `%s` substitution. -/
def utilFormat (template : String) (args : List String) : String :=
  String.mk (formatScan template.data args)

/-- The query issued by `_fetchTableInfo` (index.js lines 98-100):
the schema and table names are substituted into the SQL text by
`util.format`, and `ctrlConnection.query(sql, cb)` passes no parameter
values. -/
def tableInfoQuery (schemaName tableName : String) : QueryCall :=
  { conn := .ctrl
    sql := utilFormat TableInfoQueryTemplate [schemaName, tableName]
    params := [] }

/-- index.js line 50. -/
def SelectChecksumParamSql : String :=
  "select @@GLOBAL.binlog_checksum as checksum"

/-- index.js line 51. -/
def SetChecksumSql : String :=
  "set @master_binlog_checksum=@@global.binlog_checksum"

/-- `pat` is a prefix of the character list. -/
def isPrefixOfChars : List Char → List Char → Bool
  | [], _ => true
  | _ :: _, [] => false
  | a :: pat, b :: rest => a == b && isPrefixOfChars pat rest

/-- `pat` occurs somewhere in the character list. -/
def containsChars (pat : List Char) : List Char → Bool
  | [] => isPrefixOfChars pat []
  | c :: rest => isPrefixOfChars pat (c :: rest) || containsChars pat rest

/-- `err.toString().match(/ER_UNKNOWN_SYSTEM_VARIABLE/)` (index.js line
76): a substring test on the error text. -/
def matchesUnknownSystemVariable (e : String) : Bool :=
  containsChars "ER_UNKNOWN_SYSTEM_VARIABLE".data e.data

/-- One invocation of the completion callback `next` of
`_isChecksumEnabled`: `next(err)` or `next(null, checksumEnabled)`. -/
inductive NextCall where
  | err (e : String)
  | ok (checksumEnabled : Bool)
deriving Repr, DecidableEq

/-- An oracle giving each query's outcome; for the checksum-select query
the returned strings are the values of the `checksum` column. -/
def QueryExec : Type := Conn → String → Except String (List String)

/-- The `.catch` handler of `_isChecksumEnabled` (index.js lines 75-82)
followed by the final `.then` (lines 83-85), entered with rejection
reason `e` and the current value of `checksumEnabled`: a matching
unknown-system-variable error sets the flag false and issues `SELECT 1`
(whose own rejection leaves the chain rejected, so the final `.then`
never runs); any other error calls `next(err)`, the handler returns
undefined so the chain is fulfilled, and the final `.then` then calls
`next(null, checksumEnabled)` a second time. -/
def catchThen (e : String) (checksumEnabled : Bool) (exec : QueryExec) :
    List NextCall :=
  if matchesUnknownSystemVariable e then
    match exec .stream "SELECT 1" with
    | .ok _ => [.ok false]
    | .error _ => []
  else
    [.err e, .ok checksumEnabled]

/-- `_isChecksumEnabled` (index.js lines 49-86) as the sequence of `next`
invocations its promise chain performs, given the query outcomes.
`checksumEnabled` starts true; a `NONE` answer sets it false and issues
`SELECT 1` on the stream connection, any other answer issues
`SetChecksumSql`; an empty row set makes `rows[0].checksum` throw, which
the `.catch` receives; rejections flow to `catchThen`. -/
def isChecksumEnabled (exec : QueryExec) : List NextCall :=
  match exec .ctrl SelectChecksumParamSql with
  | .error e => catchThen e true exec
  | .ok rows =>
    match rows with
    | [] =>
      catchThen "TypeError: Cannot read properties of undefined" true exec
    | v :: _ =>
      if v = "NONE" then
        match exec .stream "SELECT 1" with
        | .ok _ => [.ok false]
        | .error e => catchThen e false exec
      else
        match exec .stream SetChecksumSql with
        | .ok _ => [.ok true]
        | .error e => catchThen e true exec

/-- The settlement state of one of the promises built in `start`. -/
inductive PromiseState where
  | pending
  | resolved
  | rejected (e : String)
deriving Repr, DecidableEq

/-- The callback passed to `_isChecksumEnabled` by `testChecksum`
(index.js lines 149-155). Its body runs in full on every invocation:
`reject`/`resolve` only settle a still-pending promise, but
`this.useChecksum = checksumEnabled` is assigned regardless. -/
def testChecksumCallback (c : NextCall) (s : Session) (p : PromiseState) :
    Session × PromiseState :=
  match c with
  | .err e => (s, if p = .pending then .rejected e else p)
  | .ok b => ({ s with useChecksum := b }, if p = .pending then .resolved else p)

/-- All `next` invocations of one `_isChecksumEnabled` run, applied in
order to the session and the `testChecksum` promise. -/
def testChecksumRun (calls : List NextCall) (s : Session) :
    Session × PromiseState :=
  calls.foldl (fun acc c => testChecksumCallback c acc.1 acc.2) (s, .pending)

/-- The `testChecksum` executor (index.js lines 147-156) run to
completion: the guard `if (this.stopped) return resolve()` fires before
the query is issued; otherwise the whole `_isChecksumEnabled` exchange
takes place. -/
def testChecksum (exec : QueryExec) (s : Session) : Session × PromiseState :=
  if s.stopped then (s, .resolved)
  else testChecksumRun (isChecksumEnabled exec) s

/-- One row of `SHOW BINARY LOGS`. -/
structure LogRow where
  Log_name : String
  File_size : Nat
deriving Repr, DecidableEq

/-- `_findBinlogEnd` (index.js lines 89-94): an error is passed through;
otherwise the last listed row, or null when the listing is empty. -/
def findBinlogEnd (outcome : Except String (List LogRow)) :
    Except String (Option LogRow) :=
  match outcome with
  | .error e => .error e
  | .ok rows => .ok rows.getLast?

/-- The `_findBinlogEnd` callback inside `findBinlogEnd` of `start`
(index.js lines 160-171), entered when the `SHOW BINARY LOGS` outcome
arrives: an error rejects; a non-null result rewrites `this.options`
with `Object.assign({}, options, {filename, position})` over the caller's
`options`; then the promise resolves. It does not re-check `stopped`. -/
def findBinlogEndResume (opts : SessionOptions)
    (outcome : Except String (List LogRow)) (s : Session) :
    Session × PromiseState :=
  match findBinlogEnd outcome with
  | .error e => (s, .rejected e)
  | .ok none => (s, .resolved)
  | .ok (some row) =>
    ({ s with options :=
        { serverId := opts.serverId
          filename := some row.Log_name
          position := some row.File_size
          startAtEnd := opts.startAtEnd } }, .resolved)

/-- The `findBinlogEnd` executor (index.js lines 158-172) run to
completion: the guard fires before the query is issued; otherwise the
callback handles the outcome. -/
def findBinlogEndStep (opts : SessionOptions)
    (outcome : Except String (List LogRow)) (s : Session) :
    Session × PromiseState :=
  if s.stopped then (s, .resolved)
  else findBinlogEndResume opts outcome s

/-- The continuation of `Promise.all` in `start` (index.js lines
174-187): a rejection reaches the `.catch` and is emitted as `error`; if
all promises resolved and the session is not stopped, the binlog stream
is constructed, `ready` is set and signalled; a still-pending promise
leaves `start` unsettled. -/
def startFinish (results : List PromiseState) (s : Session) :
    Session × List Emitted :=
  match results.findSome? (fun r => match r with
    | .rejected e => some e
    | _ => none) with
  | some e => (s, [.error e])
  | none =>
    if results.any (· == .pending) then (s, [])
    else if !s.stopped then ({ s with ready := true }, [.ready])
    else (s, [])

/-- The synchronous part of `stop()` (index.js lines 191-196): under the
`!this.stopped` guard, set `stopped`, destroy the stream connection and
issue the `KILL` query; the second field records whether the kill (and
hence its callback) was issued at all. -/
structure StopCallResult where
  session : Session
  killIssued : Bool
deriving Repr, DecidableEq

/-- `stop()` up to its suspension point. -/
def stopCall (s : Session) : StopCallResult :=
  if !s.stopped then
    { session := { s with stopped := true, connectionDestroyed := true }
      killIssued := true }
  else
    { session := s, killIssued := false }

/-- The `KILL` query callback (index.js lines 196-199): runs whatever the
kill's outcome was, destroys the control connection when owned, and
emits `stopped`. -/
def stopResume (s : Session) : Session × List Emitted :=
  ({ s with ctrlDestroyed := s.ctrlConnectionOwner || s.ctrlDestroyed },
    [.stopped])

/-- A full `stop()`: the synchronous part, then — when the kill was
issued — its callback. -/
def stopRun (s : Session) : Session × List Emitted :=
  let r := stopCall s
  if r.killIssued then stopResume r.session
  else (r.session, [])

/-- The query oracle seen by a negotiation query interrupted by `stop()`:
the destroyed connection surfaces a connection-lost error. -/
def connectionLostExec : QueryExec := fun _ _ =>
  .error "Error: Connection lost: The server closed the connection."

/-- An oracle on a server with checksums on: the checksum select answers
`CRC32` and the stream-side set statement succeeds. -/
def crcExec : QueryExec := fun c _ =>
  match c with
  | .ctrl => .ok ["CRC32"]
  | .stream => .ok []

/-- An oracle whose checksum select fails with an error that does not
match the unknown-system-variable pattern. -/
def failExec : QueryExec := fun c _ =>
  match c with
  | .ctrl => .error "Error: ACCESS_DENIED"
  | .stream => .ok []

/-- `stop()` running to completion before the negotiation promises are
constructed, followed by the negotiation phase of `start`: both executors
see the stopped flag at their guard, and `Promise.all` settles with the
session stopped. -/
def stopThenStart (exec : QueryExec) (opts : SessionOptions)
    (outcome : Except String (List LogRow)) (s0 : Session) :
    Session × List Emitted :=
  let p1 := stopRun s0
  let p2 := testChecksum exec p1.1
  let p3 := findBinlogEndStep opts outcome p2.1
  let p4 := startFinish [p2.2, p3.2] p3.1
  (p4.1, p1.2 ++ p4.2)

/-- `start` issues both negotiation queries (the guards pass on the live
session), `stop()` then runs to completion while they are in flight, and
the callbacks finally arrive: the checksum chain's `next` invocations
`calls`, then the log-listing outcome. -/
def startInterruptedByStop (calls : List NextCall) (opts : SessionOptions)
    (outcome : Except String (List LogRow)) (s0 : Session) :
    Session × List Emitted :=
  let p1 := stopRun s0
  let p2 := testChecksumRun calls p1.1
  let p3 := findBinlogEndResume opts outcome p2.1
  let p4 := startFinish [p2.2, p3.2] p3.1
  (p4.1, p1.2 ++ p4.2)

/-- A fresh session starts with `startAtEnd` absent (only the checksum
promise is built); the checksum query is issued (the guard passes on the
live session); `stop()` runs to completion while it is in flight; the
checksum chain then resumes against the destroyed connection and errors;
`Promise.all` settles. -/
def stopDuringChecksumScenario : Session × List Emitted :=
  let p1 := stopRun initSession
  let p2 := testChecksumRun (isChecksumEnabled connectionLostExec) p1.1
  let p3 := startFinish [p2.2] p2.1
  (p3.1, p1.2 ++ p3.2)

/-- A fresh session starts with `startAtEnd` true; the `SHOW BINARY LOGS`
query is issued (the guard passes on the live session); `stop()` runs to
completion while it is in flight; the listing then arrives with one row
and the callback runs. -/
def stopDuringFindBinlogScenario : Session :=
  let p1 := stopRun initSession
  (findBinlogEndResume
    { serverId := none, filename := none, position := none, startAtEnd := true }
    (.ok [{ Log_name := "log.000005", File_size := 1540 }]) p1.1).1

end ZongJi

namespace ZongJi

/-- The spec's reading of `skipEvent`: skipped iff the name is in a present
`excludeEvents`, or `includeEvents` is present and the name is not in it. -/
theorem skipEvent_iff (f : EventFilters) (n : String) :
    skipEvent f n = true ↔
      (∃ le, f.excludeEvents = some le ∧ n ∈ le) ∨
      (∃ li, f.includeEvents = some li ∧ n ∉ li) := by
  unfold skipEvent
  cases hi : f.includeEvents <;> cases he : f.excludeEvents <;> simp

/-- The spec's reading of `skipSchema`: skipped iff a present exclude-rule
for the schema matches the table, or an include map is present and no
include-rule for the schema matches the table. -/
theorem skipSchema_iff (f : SchemaFilters) (db table : String) :
    skipSchema f db table = true ↔
      (∃ m r, f.excludeSchema = some m ∧ m.lookup db = some r ∧
        ruleMatches r table = true) ∨
      (∃ m, f.includeSchema = some m ∧
        ∀ r, m.lookup db = some r → ruleMatches r table = false) := by
  rcases hi : f.includeSchema with _ | mi <;> rcases he : f.excludeSchema with _ | me
  · simp [skipSchema, hi, he]
  · rcases hl : me.lookup db with _ | r <;> simp [skipSchema, hi, he, hl]
  · rcases hl : mi.lookup db with _ | r <;> simp [skipSchema, hi, he, hl]
  · rcases hli : mi.lookup db with _ | ri <;> rcases hle : me.lookup db with _ | re <;>
      simp [skipSchema, hi, he, hli, hle]

/-- `setTableMap` is a point update: looking the written id back up
returns exactly the written entry. -/
theorem lookup_setTableMap (m : List (Nat × TableInfoEntry)) (id : Nat)
    (e : TableInfoEntry) : (setTableMap m id e).lookup id = some e := by
  induction m with
  | nil => simp [setTableMap, List.lookup]
  | cons kv rest ih =>
    obtain ⟨k, v⟩ := kv
    by_cases h : k = id
    · simp [setTableMap, h, List.lookup]
    · have hk : (id == k) = false := beq_eq_false_iff_ne.mpr (Ne.symm h)
      simp [setTableMap, h, List.lookup, hk, ih]

/-- C3: `skipEvent(n)` is true iff `excludeEvents` is present and `n` is
in it, or `includeEvents` is present and `n` is not in it; a name in both
lists is skipped (exclusion wins over inclusion). -/
theorem skipEvent_spec (f : EventFilters) (n : String) :
    (skipEvent f n = true ↔
      (∃ le, f.excludeEvents = some le ∧ n ∈ le) ∨
      (∃ li, f.includeEvents = some li ∧ n ∉ li)) ∧
    (∀ li le, f.includeEvents = some li → f.excludeEvents = some le →
      n ∈ li → n ∈ le → skipEvent f n = true) :=
  ⟨skipEvent_iff f n, fun _li le _hi he _hni hne =>
    (skipEvent_iff f n).2 (Or.inl ⟨le, he, hne⟩)⟩

/-- C3 witness: a name present in both lists is skipped. -/
theorem skipEvent_spec_witness :
    skipEvent { includeEvents := some ["WriteRows"],
                excludeEvents := some ["WriteRows"] } "WriteRows" = true :=
  (skipEvent_spec _ "WriteRows").2 ["WriteRows"] ["WriteRows"] rfl rfl
    (by simp) (by simp)

/-- C4: `skipSchema` is true iff a present exclude-rule for the schema
matches the table (boolean-true matches all, a list by membership, a
predicate by invocation), or an include map is present and no
include-rule for the schema matches the table; with both maps absent
nothing is skipped. -/
theorem skipSchema_spec (f : SchemaFilters) (db table : String) :
    (skipSchema f db table = true ↔
      (∃ m r, f.excludeSchema = some m ∧ m.lookup db = some r ∧
        ruleMatches r table = true) ∨
      (∃ m, f.includeSchema = some m ∧
        ∀ r, m.lookup db = some r → ruleMatches r table = false)) ∧
    (f.includeSchema = none → f.excludeSchema = none →
      skipSchema f db table = false) := by
  refine ⟨skipSchema_iff f db table, fun h1 h2 => ?_⟩
  cases hb : skipSchema f db table with
  | false => rfl
  | true =>
    rcases (skipSchema_iff f db table).1 hb with ⟨m, r, hm, _, _⟩ | ⟨m, hm, _⟩
    · rw [h2] at hm; exact absurd hm (by simp)
    · rw [h1] at hm; exact absurd hm (by simp)

/-- C4 witness: with both maps absent, nothing is skipped. -/
theorem skipSchema_spec_witness :
    skipSchema { includeSchema := none, excludeSchema := none } "db1" "t1" =
      false :=
  (skipSchema_spec _ "db1" "t1").2 rfl rfl

/-- C5: the metadata cache is last-write-wins: after two successfully
resolved table-map events with the same tableId, a lookup of that id
returns exactly the entry built from the second event. -/
theorem tableMap_last_write_wins (s : Session) (ev1 ev2 : TableMapEvent)
    (rows1 rows2 : List ColumnRow) (_hid : ev1.tableId = ev2.tableId)
    (h1 : rows1 ≠ []) (h2 : rows2 ≠ []) :
    ((fetchTableInfo ev2 (.ok rows2)
        (fetchTableInfo ev1 (.ok rows1) s).session).session).tableMap.lookup
        ev2.tableId =
      some { columnSchemas := rows2
             parentSchema := ev2.schemaName
             tableName := ev2.tableName } := by
  have l1 : rows1.length ≠ 0 := by simpa using h1
  have l2 : rows2.length ≠ 0 := by simpa using h2
  simp [fetchTableInfo, l1, l2, lookup_setTableMap]

/-- C5 witness: two concrete table-map events for tableId 7. -/
theorem tableMap_last_write_wins_witness :
    ((fetchTableInfo ⟨7, "db2", "t2"⟩ (.ok [⟨"colB", "", "", "", ""⟩])
        (fetchTableInfo ⟨7, "db1", "t1"⟩ (.ok [⟨"colA", "", "", "", ""⟩])
          initSession).session).session).tableMap.lookup 7 =
      some { columnSchemas := [⟨"colB", "", "", "", ""⟩]
             parentSchema := "db2"
             tableName := "t2" } :=
  tableMap_last_write_wins initSession ⟨7, "db1", "t1"⟩ ⟨7, "db2", "t2"⟩
    [⟨"colA", "", "", "", ""⟩] [⟨"colB", "", "", "", ""⟩] rfl (by simp) (by simp)

/-- C6: a successful column-metadata query with zero rows emits an error
naming insufficient permissions or a dropped table, does not stop the
session (the stopped flag stays false, the session state is untouched and
readiness persists), and does not invoke `next`. -/
theorem fetchTableInfo_zero_rows (s : Session) (ev : TableMapEvent)
    (hstop : s.stopped = false) (hready : s.ready = true) :
    (fetchTableInfo ev (.ok []) s).events =
      [.error (tableInfoErrorMessage ev.schemaName ev.tableName)] ∧
    (fetchTableInfo ev (.ok []) s).session = s ∧
    (fetchTableInfo ev (.ok []) s).session.stopped = false ∧
    (fetchTableInfo ev (.ok []) s).session.ready = true ∧
    (fetchTableInfo ev (.ok []) s).nextCalled = false :=
  ⟨rfl, rfl, hstop, hready, rfl⟩

/-- C6 witness: a concrete streaming session and table-map event. -/
theorem fetchTableInfo_zero_rows_witness :
    (fetchTableInfo ⟨5, "db1", "t1"⟩ (.ok [])
        { initSession with ready := true }).events =
      [.error (tableInfoErrorMessage "db1" "t1")] :=
  (fetchTableInfo_zero_rows { initSession with ready := true }
    ⟨5, "db1", "t1"⟩ rfl rfl).1

/-- C7: `stop()` is idempotent: after a first full `stop()`, a second
call changes nothing, issues no kill, emits nothing, and across both
calls exactly one `stopped` and no `error` notification are emitted; a
second call made already between the first call and its kill callback is
likewise a no-op. -/
theorem stop_idempotent (s : Session) (h : s.stopped = false) :
    (stopRun (stopRun s).1).1 = (stopRun s).1 ∧
    (stopRun (stopRun s).1).2 = [] ∧
    (stopCall (stopRun s).1).killIssued = false ∧
    (stopCall (stopCall s).session).killIssued = false ∧
    ((stopRun s).2 ++ (stopRun (stopRun s).1).2).count .stopped = 1 ∧
    (∀ e, Emitted.error e ∉ (stopRun s).2 ++ (stopRun (stopRun s).1).2) := by
  simp [stopRun, stopCall, stopResume, h]

/-- C7 witness: a fresh session. -/
theorem stop_idempotent_witness :
    ((stopRun initSession).2 ++ (stopRun (stopRun initSession).1).2).count
      .stopped = 1 :=
  (stop_idempotent initSession rfl).2.2.2.2.1

/-- C8: with a non-empty log listing the resolved position is the last
listed file's name and size, and it overwrites the caller-supplied
filename/position; with an empty listing the resolution yields null and
the session's options are left unchanged. -/
theorem findBinlogEnd_spec (opts : SessionOptions) (s : Session)
    (rows : List LogRow) (row : LogRow) (hlast : rows.getLast? = some row)
    (hstop : s.stopped = false) :
    findBinlogEnd (.ok rows) = .ok (some row) ∧
    findBinlogEndStep opts (.ok rows) s =
      ({ s with options :=
          { serverId := opts.serverId
            filename := some row.Log_name
            position := some row.File_size
            startAtEnd := opts.startAtEnd } }, .resolved) ∧
    findBinlogEnd (.ok ([] : List LogRow)) = .ok none ∧
    findBinlogEndStep opts (.ok []) s = (s, .resolved) := by
  refine ⟨by simp [findBinlogEnd, hlast], ?_, rfl, ?_⟩
  · simp [findBinlogEndStep, hstop, findBinlogEndResume, findBinlogEnd, hlast]
  · simp [findBinlogEndStep, hstop, findBinlogEndResume, findBinlogEnd]

/-- C8 witness: a single-entry listing overrides the caller-supplied
filename and position. -/
theorem findBinlogEnd_spec_witness :
    findBinlogEndStep
      { serverId := none, filename := some "caller.bin", position := some 4,
        startAtEnd := true }
      (.ok [{ Log_name := "log.000005", File_size := 1540 }])
      { initSession with options :=
        { serverId := none, filename := some "caller.bin", position := some 4,
          startAtEnd := true } } =
      ({ initSession with options :=
          { serverId := none, filename := some "log.000005",
            position := some 1540, startAtEnd := true } }, .resolved) :=
  (findBinlogEnd_spec _ _ [{ Log_name := "log.000005", File_size := 1540 }]
    { Log_name := "log.000005", File_size := 1540 } (by decide) rfl).2.1

/-- C1 counterexample: on a fresh session (never stopped, so `start`'s
guard passed and the checksum query went out), `stop()` completes while
the query is in flight; the destroyed connection makes the query error,
the rejection reaches `start`'s `.catch`, and an `error` notification is
emitted — refuting "no error notification is emitted as a consequence of
the stop interrupting the in-flight negotiation queries". `stopped` is
still signaled and `ready` never is. -/
theorem stop_during_negotiation_error_emitted :
    initSession.stopped = false ∧
    stopDuringChecksumScenario.2 =
      [.stopped,
       .error "Error: Connection lost: The server closed the connection."] ∧
    Emitted.ready ∉ stopDuringChecksumScenario.2 ∧
    stopDuringChecksumScenario.1.ready = false := by
  decide

/-- C1 (amended): if `stop()` is called before the negotiation completes,
`stopped` is eventually signaled, `ready` is never signaled, and `start`
settles without error provided the interrupted queries do not themselves
error: both when the stop completes before the queries are issued (the
executor guards short-circuit) and when it lands while the queries are in
flight and they then succeed. (When an interrupted query errors, the
error is emitted, as the counterexample shows.) -/
theorem stop_before_negotiation_amended (s0 : Session) (exec : QueryExec)
    (opts : SessionOptions) (b : Bool) (rows : List LogRow)
    (hstop : s0.stopped = false) (hready : s0.ready = false)
    (hcs : isChecksumEnabled exec = [.ok b]) :
    ((stopThenStart exec opts (.ok rows) s0).2 = [.stopped] ∧
      (stopThenStart exec opts (.ok rows) s0).1.ready = false) ∧
    ((startInterruptedByStop (isChecksumEnabled exec) opts (.ok rows) s0).2 =
        [.stopped] ∧
      (startInterruptedByStop (isChecksumEnabled exec) opts
          (.ok rows) s0).1.ready = false) := by
  constructor
  · constructor <;>
      simp [stopThenStart, stopRun, stopCall, stopResume, hstop, hready,
        testChecksum, findBinlogEndStep, startFinish]
  · rw [hcs]
    rcases hr : rows.getLast? with _ | row <;> constructor <;>
      simp [startInterruptedByStop, stopRun, stopCall, stopResume, hstop,
        hready, testChecksumRun, testChecksumCallback, findBinlogEndResume,
        findBinlogEnd, hr, startFinish]

/-- C1 witness: a fresh session, a checksum-enabled server, a tail-start
listing. -/
theorem stop_before_negotiation_amended_witness :
    (stopThenStart crcExec
      { serverId := none, filename := none, position := none,
        startAtEnd := true }
      (.ok [{ Log_name := "log.000005", File_size := 1540 }])
      initSession).2 = [.stopped] :=
  ((stop_before_negotiation_amended initSession crcExec _ true _
    rfl rfl (by decide)).1).1

/-- C2 counterexample: `stop()` completes while the `SHOW BINARY LOGS`
query of tail-position resolution is in flight (the guard had already
passed on the live session); the resume callback then runs without
re-checking the stopped flag and rewrites the session's
filename/position — refuting "tail-position resolution does not rewrite
the session's filename/position after the session has been stopped". -/
theorem resume_guard_counterexample :
    stopDuringFindBinlogScenario.stopped = true ∧
    stopDuringFindBinlogScenario.options.filename = some "log.000005" ∧
    stopDuringFindBinlogScenario.options.position = some 1540 := by
  decide

/-- C2 (amended): each of the two start operations checks the stopped
guard before issuing its query — at the start of its promise executor,
not upon resuming — and short-circuits to a no-op success if the session
was already stopped there; the resume callbacks themselves do not
re-check the guard, so after a stop that lands mid-flight, checksum
resolution still records `useChecksum` and tail-position resolution
still rewrites the session's filename/position. -/
theorem stopped_guard_amended (s : Session) (exec : QueryExec)
    (opts : SessionOptions) (outcome : Except String (List LogRow))
    (row : LogRow) (b : Bool) (h : s.stopped = true) :
    testChecksum exec s = (s, .resolved) ∧
    findBinlogEndStep opts outcome s = (s, .resolved) ∧
    (findBinlogEndResume opts (.ok [row]) s).1.options.filename =
      some row.Log_name ∧
    (findBinlogEndResume opts (.ok [row]) s).1.options.position =
      some row.File_size ∧
    (testChecksumRun [.ok b] s).1.useChecksum = b := by
  refine ⟨by simp [testChecksum, h], by simp [findBinlogEndStep, h],
    ?_, ?_, ?_⟩ <;>
    simp [findBinlogEndResume, findBinlogEnd, testChecksumRun,
      testChecksumCallback]

/-- C2 witness: a stopped session, a one-row listing. -/
theorem stopped_guard_amended_witness :
    testChecksum crcExec { initSession with stopped := true } =
      ({ initSession with stopped := true }, .resolved) :=
  (stopped_guard_amended { initSession with stopped := true } crcExec
    { serverId := none, filename := none, position := none,
      startAtEnd := false }
    (.ok []) { Log_name := "log.000001", File_size := 4 } true rfl).1

/-- C9 counterexample: the metadata lookup passes no bound parameters —
`query(sql, cb)` carries an empty parameter list — and the SQL text
itself varies with the schema name, so the names are interpolated into
the statement text, not supplied as bound parameters. -/
theorem tableInfoQuery_interpolates :
    (tableInfoQuery "db1" "t1").params = [] ∧
    (tableInfoQuery "db1" "t1").sql ≠ (tableInfoQuery "db2" "t1").sql := by
  decide

/-- C9 (amended): the metadata lookup queries the catalog via the control
connection with the schema and table names interpolated into the SQL
text by `util.format` `%s` substitution (no bound parameters), scoped to
exactly one (schema, table) pair and ordered by column ordinal
position. -/
theorem tableInfoQuery_spec :
    (∀ schemaName tableName,
      (tableInfoQuery schemaName tableName).params = [] ∧
      (tableInfoQuery schemaName tableName).conn = .ctrl) ∧
    tableInfoQuery "db1" "t1" =
      { conn := .ctrl
        sql := "SELECT \n  COLUMN_NAME, COLLATION_NAME, CHARACTER_SET_NAME, \n  COLUMN_COMMENT, COLUMN_TYPE \n  FROM INFORMATION_SCHEMA.COLUMNS WHERE TABLE_SCHEMA='db1' AND TABLE_NAME='t1' \n  ORDER BY ORDINAL_POSITION"
        params := [] } :=
  ⟨fun _ _ => ⟨rfl, rfl⟩, by decide⟩

/-- C10: when the initial checksum query fails with an error not matching
the unknown-system-variable pattern, `next` is invoked twice — first
with the error, then with success and `checksumEnabled = true` — so the
`testChecksum` promise rejects (and `start` emits the error and never
signals readiness) while `useChecksum` is nonetheless left `true`. -/
theorem checksum_error_double_callback (e : String) (exec : QueryExec)
    (s : Session) (hmatch : matchesUnknownSystemVariable e = false)
    (hq : exec .ctrl SelectChecksumParamSql = .error e) :
    isChecksumEnabled exec = [.err e, .ok true] ∧
    (testChecksumRun (isChecksumEnabled exec) s).1.useChecksum = true ∧
    (testChecksumRun (isChecksumEnabled exec) s).2 = .rejected e ∧
    startFinish [(testChecksumRun (isChecksumEnabled exec) s).2]
        (testChecksumRun (isChecksumEnabled exec) s).1 =
      ((testChecksumRun (isChecksumEnabled exec) s).1, [.error e]) := by
  have h1 : isChecksumEnabled exec = [.err e, .ok true] := by
    simp [isChecksumEnabled, hq, catchThen, hmatch]
  refine ⟨h1, ?_, ?_, ?_⟩ <;>
    simp [h1, testChecksumRun, testChecksumCallback, startFinish]

/-- C10 witness: a concrete access-denied failure of the checksum
query. -/
theorem checksum_error_double_callback_witness :
    (testChecksumRun (isChecksumEnabled failExec) initSession).1.useChecksum =
      true :=
  (checksum_error_double_callback "Error: ACCESS_DENIED" failExec initSession
    (by decide) rfl).2.1

end ZongJi
